import Mathlib

/-!
# IsThisACat: the `ImageCollector` collector interface

Source: `src/data/image.collector.hpp`.  The repository consists of one abstract
class, `ImageCollector`.  Two views of it are embedded here.

* The declaration itself (`ImageCollector.members`): one record per member
  declared in the class body, in source order, with the specifiers written in
  the header.
* The behaviour the declaration admits (`ImageCollector σ`): a record of the
  five virtual operations over an implementation-chosen state type `σ`.  An
  "implementation of the interface" is a value of this record type.  The header
  fixes, per operation, the argument and return types, whether it is `const`,
  and whether a `@throw std::runtime_error` is documented; the field types are
  read off from exactly these.
-/

namespace IsThisACat

/-! ## The declaration -/

/-- Access specifier of a member (`public:` / `protected:` / `private:`). -/
inductive Access where
  | public_
  | protected_
  | private_
  deriving DecidableEq, Repr

/-- The C++ types that occur in the header's signatures. -/
inductive CppType where
  | void
  | bool
  | string
  | constStringRef
  deriving DecidableEq, Repr

/-- What sort of member a declaration introduces. -/
inductive MemberKind where
  | destructor
  | constructor
  | memberFunction
  | dataMember
  deriving DecidableEq, Repr

/-- How a member declaration ends: `= 0`, `= default`, or an inline body. -/
inductive Definition where
  | pureSpecifier
  | defaulted
  | inlineBody
  deriving DecidableEq, Repr

/-- One member declaration of a class, with the specifiers written in the header. -/
structure Member where
  kind : MemberKind
  name : String
  access : Access
  isVirtual : Bool
  params : List CppType
  returns : Option CppType
  isConst : Bool
  definition : Definition
  /-- The exception type named by the member's `@throw` documentation, if any -/
  throws : Option String
  deriving DecidableEq, Repr

/-- Line 23: `virtual ~ImageCollector() = default;` (under `public:`). -/
def ImageCollector.destructorDecl : Member :=
  { kind := .destructor, name := "~ImageCollector", access := .public_, isVirtual := true,
    params := [], returns := none, isConst := false, definition := .defaulted, throws := none }

/-- Line 33: `virtual void configure(const std::string& configString) = 0;`,
documented `@throw std::runtime_error`. -/
def ImageCollector.configureDecl : Member :=
  { kind := .memberFunction, name := "configure", access := .public_, isVirtual := true,
    params := [.constStringRef], returns := some .void, isConst := false,
    definition := .pureSpecifier, throws := some "std::runtime_error" }

/-- Line 43: `virtual bool collect() = 0;`, documented `@throw std::runtime_error`. -/
def ImageCollector.collectDecl : Member :=
  { kind := .memberFunction, name := "collect", access := .public_, isVirtual := true,
    params := [], returns := some .bool, isConst := false,
    definition := .pureSpecifier, throws := some "std::runtime_error" }

/-- Line 50: `virtual void stopCollection() = 0;`, no `@throw` documented. -/
def ImageCollector.stopCollectionDecl : Member :=
  { kind := .memberFunction, name := "stopCollection", access := .public_, isVirtual := true,
    params := [], returns := some .void, isConst := false,
    definition := .pureSpecifier, throws := none }

/-- Line 57: `virtual std::string getStatus() const = 0;`, no `@throw` documented. -/
def ImageCollector.getStatusDecl : Member :=
  { kind := .memberFunction, name := "getStatus", access := .public_, isVirtual := true,
    params := [], returns := some .string, isConst := true,
    definition := .pureSpecifier, throws := none }

/-- Line 65: `virtual bool isCollectionComplete() const = 0;`, no `@throw` documented. -/
def ImageCollector.isCollectionCompleteDecl : Member :=
  { kind := .memberFunction, name := "isCollectionComplete", access := .public_,
    isVirtual := true, params := [], returns := some .bool, isConst := true,
    definition := .pureSpecifier, throws := none }

/-- Line 69: `ImageCollector() = default;` (under `protected:`). -/
def ImageCollector.constructorDecl : Member :=
  { kind := .constructor, name := "ImageCollector", access := .protected_, isVirtual := false,
    params := [], returns := none, isConst := false, definition := .defaulted, throws := none }

/-- Every member declared in the body of `class ImageCollector`, in source order
(lines 16-70). -/
def ImageCollector.members : List Member :=
  [ ImageCollector.destructorDecl,
    ImageCollector.configureDecl,
    ImageCollector.collectDecl,
    ImageCollector.stopCollectionDecl,
    ImageCollector.getStatusDecl,
    ImageCollector.isCollectionCompleteDecl,
    ImageCollector.constructorDecl ]

/-- The operations of a class: its member functions (constructors and
destructors are special members, not operations). -/
def operations (ms : List Member) : List Member :=
  ms.filter (fun m => m.kind = .memberFunction)

/-- Everything a class declares besides its operations. -/
def nonOperations (ms : List Member) : List Member :=
  ms.filter (fun m => m.kind ≠ .memberFunction)

/-- A member is pure virtual: `virtual ... = 0`, hence no default body. -/
def Member.isPureVirtual (m : Member) : Bool :=
  m.isVirtual && decide (m.definition = .pureSpecifier)

/-- Name, parameter types and return type of a member. -/
def Member.signature (m : Member) : String × List CppType × Option CppType :=
  (m.name, m.params, m.returns)

/-- A member is a virtual destructor. -/
def Member.isVirtualDestructor (m : Member) : Bool :=
  decide (m.kind = .destructor) && m.isVirtual

/-! ## The behaviour the declaration admits -/

/-- The exception type `std::runtime_error` (header line 6): the one exception type the header's
`@throw` documentation names.  It carries the `what()` message. -/
structure runtime_error where
  what : String
  deriving DecidableEq, Repr

/-- An implementation of `ImageCollector` over a state type `σ`: one field per
pure virtual operation.  A non-`const` operation receives the object state and
leaves a (possibly changed) state behind, also when it throws; a `const`
operation only reads the state.  An operation may throw exactly when the header
documents `@throw std::runtime_error` for it (lines 31 and 41). -/
structure ImageCollector (σ : Type) where
  /-- Header line 33, `virtual void configure(const std::string& configString) = 0;`. -/
  configure : String → σ → Except runtime_error Unit × σ
  /-- Header line 43, `virtual bool collect() = 0;`. -/
  collect : σ → Except runtime_error Bool × σ
  /-- Header line 50, `virtual void stopCollection() = 0;`. -/
  stopCollection : σ → σ
  /-- Header line 57, `virtual std::string getStatus() const = 0;`. -/
  getStatus : σ → String
  /-- Header line 65, `virtual bool isCollectionComplete() const = 0;`. -/
  isCollectionComplete : σ → Bool

/-- A call a client can make through a reference to the interface. -/
inductive Op where
  | configure (configString : String)
  | collect
  | stopCollection
  | getStatus
  | isCollectionComplete
  deriving DecidableEq, Repr

/-- What a call hands back to the caller: nothing (`void`), a `bool` or a
`std::string`. -/
inductive Value where
  | unit
  | bool (b : Bool)
  | string (s : String)
  deriving DecidableEq, Repr

/-- The two channels of a call: a returned value, or a thrown `runtime_error`. -/
abbrev Outcome := Except runtime_error Value

/-- One call through the interface: the outcome seen by the caller and the
state the collector is left in. -/
def call {σ : Type} (c : ImageCollector σ) : Op → σ → Outcome × σ
  | .configure configString, s =>
      match c.configure configString s with
      | (.ok (), s1) => (.ok .unit, s1)
      | (.error e, s1) => (.error e, s1)
  | .collect, s =>
      match c.collect s with
      | (.ok b, s1) => (.ok (.bool b), s1)
      | (.error e, s1) => (.error e, s1)
  | .stopCollection, s => (.ok .unit, c.stopCollection s)
  | .getStatus, s => (.ok (.string (c.getStatus s)), s)
  | .isCollectionComplete, s => (.ok (.bool (c.isCollectionComplete s)), s)

/-- A sequence of calls on one collector: the outcomes in order, and the final
state. -/
def run {σ : Type} (c : ImageCollector σ) : List Op → σ → List Outcome × σ
  | [], s => ([], s)
  | op :: ops, s =>
      let r := call c op s
      let rest := run c ops r.2
      (r.1 :: rest.1, rest.2)

/-- The state a collector is in after a history of calls. -/
def stateAfter {σ : Type} (c : ImageCollector σ) (ops : List Op) (s : σ) : σ :=
  (run c ops s).2

/-- Whether a call is a `configure` that returned normally. -/
def isSuccessfulConfigure : Op → Outcome → Bool
  | .configure _, .ok _ => true
  | _, _ => false

/-- Whether some `configure` call of a history returned normally, i.e. whether
`configure` has succeeded on the collector so far. -/
def configureSucceeded {σ : Type} (c : ImageCollector σ) : List Op → σ → Bool
  | [], _ => false
  | op :: ops, s =>
      let r := call c op s
      isSuccessfulConfigure op r.1 || configureSucceeded c ops r.2

/-- An implementation guards `collect` by a configured flag: while the flag is
unset `collect` throws, and nothing but a `configure` that returns normally can
set it. -/
structure RequiresConfigure {σ : Type} (c : ImageCollector σ)
    (configured : σ → Bool) : Prop where
  collect_throws : ∀ s, configured s = false → ∃ e, (c.collect s).1 = .error e
  collect_keeps : ∀ s, configured s = false → configured (c.collect s).2 = false
  stop_keeps : ∀ s, configured s = false → configured (c.stopCollection s) = false
  failed_configure_keeps : ∀ cfg s e, configured s = false →
    (c.configure cfg s).1 = .error e → configured (c.configure cfg s).2 = false

/-- State of `syncCollector`. -/
structure SyncState where
  configured : Bool
  complete : Bool
  deriving DecidableEq, Repr

/-- A synchronous collector: `configure` rejects an empty configuration string,
`collect` throws until configured and otherwise runs to completion. -/
def syncCollector : ImageCollector SyncState where
  configure cfg s :=
    if cfg = "" then (.error { what := "configuracao vazia" }, s)
    else (.ok (), { s with configured := true })
  collect s :=
    if s.configured then (.ok true, { s with complete := true })
    else (.error { what := "coletor nao configurado" }, s)
  stopCollection s := s
  getStatus s :=
    if s.complete then "concluido" else if s.configured then "ocioso" else "nao configurado"
  isCollectionComplete s := s.complete

/-- A collector that needs no configuration: `configure` accepts anything and
`collect` succeeds on a freshly constructed object.  The state is the
"complete" flag. -/
def eagerCollector : ImageCollector Bool where
  configure _ s := (.ok (), s)
  collect _ := (.ok true, true)
  stopCollection s := s
  getStatus s := if s then "parado" else "ocioso"
  isCollectionComplete s := s

/-- A collector whose `configure` and `collect` both fail, each with
`throw std::runtime_error("falha")`. -/
def failingCollector : ImageCollector Unit where
  configure _ s := (.error { what := "falha" }, s)
  collect s := (.error { what := "falha" }, s)
  stopCollection s := s
  getStatus _ := "parado"
  isCollectionComplete _ := false

/-! ## Theorems about the declaration -/

/-- C1 (as stated, refuted): besides its five operations the class does not
declare only a virtual destructor.  The protected defaulted constructor of line
69 is a declared member that is neither an operation nor a virtual destructor. -/
theorem constructor_is_declared_besides_destructor :
    ImageCollector.constructorDecl ∈ nonOperations ImageCollector.members ∧
    ImageCollector.constructorDecl.isVirtualDestructor = false ∧
    ¬ (nonOperations ImageCollector.members).all Member.isVirtualDestructor = true := by
  decide

/-- C1 (amended): the class declares exactly five operations, `configure`
(one `const std::string&` argument, returns `void`), `collect` (no argument,
returns `bool`), `stopCollection` (no argument, returns `void`), `getStatus`
(no argument, returns `std::string`) and `isCollectionComplete` (no argument,
returns `bool`), each pure virtual; besides these it declares exactly a virtual
destructor and a protected, defaulted, argument-less constructor, and it has no
data member. -/
theorem interface_is_five_pure_virtual_operations :
    (operations ImageCollector.members).map Member.signature =
      [ ("configure", [CppType.constStringRef], some CppType.void),
        ("collect", [], some CppType.bool),
        ("stopCollection", [], some CppType.void),
        ("getStatus", [], some CppType.string),
        ("isCollectionComplete", [], some CppType.bool) ] ∧
    (operations ImageCollector.members).all Member.isPureVirtual = true ∧
    nonOperations ImageCollector.members =
      [ImageCollector.destructorDecl, ImageCollector.constructorDecl] ∧
    ImageCollector.destructorDecl.isVirtualDestructor = true ∧
    ImageCollector.constructorDecl.kind = MemberKind.constructor ∧
    ImageCollector.constructorDecl.access = Access.protected_ ∧
    ImageCollector.constructorDecl.definition = Definition.defaulted ∧
    ImageCollector.constructorDecl.params = [] ∧
    ImageCollector.members.all (fun m => decide (m.kind ≠ MemberKind.dataMember)) = true := by
  decide

/-- C5 (amended): the header names one error kind only.  `configure` and
`collect` are both documented to throw `std::runtime_error`, and no other
member documents an exception. -/
theorem both_failures_documented_as_runtime_error :
    ImageCollector.configureDecl.throws = some "std::runtime_error" ∧
    ImageCollector.collectDecl.throws = some "std::runtime_error" ∧
    ImageCollector.configureDecl.throws = ImageCollector.collectDecl.throws ∧
    (ImageCollector.members.filter (fun m => m.throws.isSome)).map (fun m => m.name) =
      ["configure", "collect"] := by
  decide

/-! ## Lemmas about calls and histories -/

theorem call_stopCollection {σ : Type} (c : ImageCollector σ) (s : σ) :
    call c Op.stopCollection s = (Except.ok Value.unit, c.stopCollection s) := rfl

theorem call_collect_state {σ : Type} (c : ImageCollector σ) (s : σ) :
    (call c Op.collect s).2 = (c.collect s).2 := by
  simp only [call]
  split <;> simp_all

theorem call_collect_error {σ : Type} (c : ImageCollector σ) (s : σ) (e : runtime_error) :
    (call c Op.collect s).1 = Except.error e ↔ (c.collect s).1 = Except.error e := by
  simp only [call]
  split <;> simp_all

theorem call_configure_state {σ : Type} (c : ImageCollector σ) (cfg : String) (s : σ) :
    (call c (Op.configure cfg) s).2 = (c.configure cfg s).2 := by
  simp only [call]
  split <;> simp_all

theorem call_configure_error {σ : Type} (c : ImageCollector σ) (cfg : String) (s : σ)
    (e : runtime_error) :
    (call c (Op.configure cfg) s).1 = Except.error e ↔
      (c.configure cfg s).1 = Except.error e := by
  simp only [call]
  split <;> simp_all

theorem call_configure_outcome {σ : Type} (c : ImageCollector σ) (cfg : String) (s : σ) :
    (call c (Op.configure cfg) s).1 = Except.ok Value.unit ∨
      ∃ e, (call c (Op.configure cfg) s).1 = Except.error e := by
  simp only [call]
  split <;> simp_all

theorem stateAfter_cons {σ : Type} (c : ImageCollector σ) (op : Op) (ops : List Op) (s : σ) :
    stateAfter c (op :: ops) s = stateAfter c ops (call c op s).2 := rfl

/-- Under `RequiresConfigure`, a call that is not a successful `configure`
leaves the configured flag unset. -/
theorem RequiresConfigure.call_keeps {σ : Type} {c : ImageCollector σ}
    {configured : σ → Bool} (h : RequiresConfigure c configured) (op : Op) (s : σ)
    (hs : configured s = false) (hop : isSuccessfulConfigure op (call c op s).1 = false) :
    configured (call c op s).2 = false := by
  cases op with
  | configure cfg =>
      rcases call_configure_outcome c cfg s with hok | ⟨e, he⟩
      · rw [hok] at hop
        simp [isSuccessfulConfigure] at hop
      · rw [call_configure_state]
        exact h.failed_configure_keeps cfg s e hs ((call_configure_error c cfg s e).1 he)
  | collect =>
      rw [call_collect_state]
      exact h.collect_keeps s hs
  | stopCollection => exact h.stop_keeps s hs
  | getStatus => exact hs
  | isCollectionComplete => exact hs

/-- Under `RequiresConfigure`, the configured flag stays unset along a history in
which no `configure` returned normally. -/
theorem RequiresConfigure.history_keeps {σ : Type} {c : ImageCollector σ}
    {configured : σ → Bool} (h : RequiresConfigure c configured) (ops : List Op) :
    ∀ s, configured s = false → configureSucceeded c ops s = false →
      configured (stateAfter c ops s) = false := by
  induction ops with
  | nil => intro s hs _; exact hs
  | cons op ops ih =>
      intro s hs hc
      simp only [configureSucceeded, Bool.or_eq_false_iff] at hc
      rw [stateAfter_cons]
      exact ih _ (h.call_keeps op s hs hc.1) hc.2

theorem syncCollector_requiresConfigure :
    RequiresConfigure syncCollector (fun s => s.configured) where
  collect_throws := by
    intro s hs
    simp [syncCollector, hs]
  collect_keeps := by
    intro s hs
    simp [syncCollector, hs]
  stop_keeps := by
    intro s hs
    simpa [syncCollector] using hs
  failed_configure_keeps := by
    intro cfg s e hs _
    by_cases hcfg : cfg = ""
    · simp [syncCollector, hcfg, hs]
    · simp [syncCollector, hcfg] at *

/-- C4: for every implementation, configuration string and state, `configure`
either completes and hands back nothing (the `void` result; the state may have
changed), or it throws a `runtime_error`; it never returns a boolean or string
status. -/
theorem configure_returns_nothing_or_throws {σ : Type} (c : ImageCollector σ)
    (configString : String) (s : σ) :
    ((call c (Op.configure configString) s).1 = Except.ok Value.unit ∨
      ∃ e, (call c (Op.configure configString) s).1 = Except.error e) ∧
    (∀ b, (call c (Op.configure configString) s).1 ≠ Except.ok (Value.bool b)) ∧
    (∀ t, (call c (Op.configure configString) s).1 ≠ Except.ok (Value.string t)) := by
  refine ⟨call_configure_outcome c configString s, ?_, ?_⟩
  · intro b h
    rcases call_configure_outcome c configString s with h1 | ⟨e, h1⟩ <;>
      · rw [h1] at h
        cases h
  · intro t h
    rcases call_configure_outcome c configString s with h1 | ⟨e, h1⟩ <;>
      · rw [h1] at h
        cases h

/-- C5 (as stated, refuted): `failingCollector` throws the very same error,
`std::runtime_error("falha")`, from `configure` and from `collect`; hence no
classification of errors into configuration errors and collection errors tells,
for every implementation, which of the two operations failed. -/
theorem same_error_from_configure_and_collect :
    (call failingCollector (Op.configure "fotos") ()).1 =
      Except.error { what := "falha" } ∧
    (call failingCollector Op.collect ()).1 = Except.error { what := "falha" } ∧
    ¬ ∃ isConfigurationError : runtime_error → Bool,
      ∀ (σ : Type) (c : ImageCollector σ) (cfg : String) (s : σ) (e : runtime_error),
        ((call c (Op.configure cfg) s).1 = Except.error e → isConfigurationError e = true) ∧
        ((call c Op.collect s).1 = Except.error e → isConfigurationError e = false) := by
  refine ⟨rfl, rfl, ?_⟩
  rintro ⟨k, hk⟩
  have h := hk Unit failingCollector "fotos" () { what := "falha" }
  have h1 := h.1 rfl
  have h2 := h.2 rfl
  rw [h1] at h2
  cases h2

/-- C6 (as stated, refuted): on `eagerCollector`, freshly constructed and with
no `configure` call made, `collect` returns `true`. -/
theorem collect_true_before_any_configure :
    configureSucceeded eagerCollector [] false = false ∧
    (call eagerCollector Op.collect (stateAfter eagerCollector [] false)).1 =
      Except.ok (Value.bool true) ∧
    configureSucceeded eagerCollector [Op.getStatus, Op.stopCollection] false = false ∧
    (call eagerCollector Op.collect
      (stateAfter eagerCollector [Op.getStatus, Op.stopCollection] false)).1 =
      Except.ok (Value.bool true) :=
  ⟨rfl, rfl, rfl, rfl⟩

/-- C6 (amended): for every implementation that guards `collect` by a
configured flag (`RequiresConfigure`), a collector that starts unconfigured and
on which no `configure` call has returned normally is still unconfigured, and
`collect` on it throws an error; in particular it does not return `true`. -/
theorem collect_throws_until_configure_succeeds {σ : Type} (c : ImageCollector σ)
    (configured : σ → Bool) (h : RequiresConfigure c configured) (ops : List Op) (s0 : σ)
    (h0 : configured s0 = false) (hc : configureSucceeded c ops s0 = false) :
    configured (stateAfter c ops s0) = false ∧
    (∃ e, (call c Op.collect (stateAfter c ops s0)).1 = Except.error e) ∧
    (call c Op.collect (stateAfter c ops s0)).1 ≠ Except.ok (Value.bool true) := by
  have hk := h.history_keeps ops s0 h0 hc
  obtain ⟨e, he⟩ := h.collect_throws _ hk
  have hcall := (call_collect_error c (stateAfter c ops s0) e).2 he
  refine ⟨hk, ⟨e, hcall⟩, ?_⟩
  rw [hcall]
  intro hbad
  cases hbad

/-- Witness for C6 (amended): `syncCollector`, after a history with a `collect`,
a `stopCollection`, a rejected `configure ""` and a query. -/
theorem collect_throws_until_configure_succeeds_witness :
    RequiresConfigure syncCollector (fun s => s.configured) ∧
    configureSucceeded syncCollector
      [Op.collect, Op.stopCollection, Op.configure "", Op.getStatus]
      { configured := false, complete := false } = false ∧
    (call syncCollector Op.collect
      (stateAfter syncCollector [Op.collect, Op.stopCollection, Op.configure "", Op.getStatus]
        { configured := false, complete := false })).1 ≠ Except.ok (Value.bool true) :=
  ⟨syncCollector_requiresConfigure, rfl,
    (collect_throws_until_configure_succeeds syncCollector (fun s => s.configured)
      syncCollector_requiresConfigure
      [Op.collect, Op.stopCollection, Op.configure "", Op.getStatus]
      { configured := false, complete := false } rfl rfl).2.2⟩

end IsThisACat
